import Mathlib

/-!
Verification development for the database-access-gating core of the
pytest-django plugin.

The repository sources at hand are `pytest_django/compat.py` (a version
compatibility shim) and `tests/test_database.py` (the behavioural test
suite for database access control).  The core plugin components that the
claims are about — the Access Guard, the Transaction Wrapper, the
Permission Scope Resolver and the Database Session Manager — are not
among the sampled source files, so they are modelled here faithfully
from the specification, with the test file fixing the observable
constants (exact error-message strings, fixture names, engine capability
checks).
-/

namespace PytestDjango

/-- A database alias: a name identifying one logical database connection. -/
abbrev Alias := String

/-- Isolation modes, per the spec's data model:
BLOCKED = no access granted; TRANSACTIONAL = rollback-on-teardown atomic
block; DESTRUCTIVE = no atomic wrapper, teardown flushes;
DESTRUCTIVE_WITH_SEQUENCE_RESET = DESTRUCTIVE plus resetting
auto-increment counters to their initial value. -/
inductive IsolationMode where
  | BLOCKED
  | TRANSACTIONAL
  | DESTRUCTIVE
  | DESTRUCTIVE_WITH_SEQUENCE_RESET
  deriving DecidableEq, Repr

/-- Destructiveness rank of an isolation mode, used for the
"most permissive/destructive mode wins" tie-break of §4.4. -/
def IsolationMode.rank : IsolationMode → Nat
  | .BLOCKED => 0
  | .TRANSACTIONAL => 1
  | .DESTRUCTIVE => 2
  | .DESTRUCTIVE_WITH_SEQUENCE_RESET => 3

/-- The more permissive/destructive of two isolation modes. -/
def IsolationMode.join (m₁ m₂ : IsolationMode) : IsolationMode :=
  if m₁.rank ≤ m₂.rank then m₂ else m₁

/-- The `databases` option of the `django_db` marker: either the literal
`"__all__"` or an explicit list of alias names. -/
inductive DatabasesDecl where
  | all
  | subset (aliases : List Alias)
  deriving DecidableEq, Repr

/-- Declared Requirement, parsed once per test from its marker/fixture
declarations: `{transaction: bool, reset_sequences: bool,
databases: "ALL" | set of alias names}` with the spec's defaults
(`transaction=False`, `reset_sequences=False`, `databases={"default"}`). -/
structure DeclaredRequirement where
  transaction : Bool := false
  reset_sequences : Bool := false
  databases : DatabasesDecl := .subset ["default"]
  deriving DecidableEq, Repr

/-- Modelled from the spec: the Permission Scope Resolver's isolation-mode
selection (§4.4): `reset_sequences=True` upgrades to
DESTRUCTIVE_WITH_SEQUENCE_RESET even if `transaction=True` was also
requested; otherwise `transaction=True` selects DESTRUCTIVE and the
default is TRANSACTIONAL. -/
def resolveMode (req : DeclaredRequirement) : IsolationMode :=
  if req.reset_sequences then .DESTRUCTIVE_WITH_SEQUENCE_RESET
  else if req.transaction then .DESTRUCTIVE
  else .TRANSACTIONAL

/-- A configuration error reported at setup (unknown alias, unsupported
mode). -/
abbrev ConfigError := String

/-- Modelled from the spec: the Permission Scope Resolver's alias
computation (§4.4): `"ALL"` means every known alias; an explicit subset
is checked against the known alias names, and referencing an unknown
alias is a configuration error reported at setup. -/
def resolveAliases (known : List Alias) :
    DatabasesDecl → Except ConfigError (List Alias)
  | .all => .ok known
  | .subset ds =>
      if ds.all (fun a => known.contains a) then .ok ds
      else .error "unknown database alias referenced in databases declaration"

/-- Access Scope: the set of aliases a currently-executing test is
permitted to use, plus the mirror mapping (a replica mirrors writes from
another alias). -/
structure AccessScope where
  allowed_aliases : List Alias
  mirrors : List (Alias × Alias) := []
  deriving DecidableEq, Repr

/-- The Access Guard's process-wide state: `none` when disarmed (no test
has declared database access), `some scope` when armed for a test. -/
abbrev GuardState := Option AccessScope

/-- The exact Access-Denied message for undeclared access, fixed by the
test suite (`tests/test_database.py`, `test_unittest_interaction` and
`Test_database_blocking`): it names the opt-in mechanisms. -/
def blockedMessage : String :=
  "Database access not allowed, use the \"django_db\" mark, or the \"db\" or \"transactional_db\" fixtures to enable it."

/-- Modelled from the spec: the Access-Denied message for armed but
out-of-scope alias access; the spec fixes only that it contains the
substring "not allowed" plus the alias name. -/
def aliasNotAllowedMessage (a : Alias) : String :=
  "Database queries to " ++ a ++ " are " ++ "not allowed"

/-- Modelled from the spec: the Access Guard's interception point (§4.1):
every attempt to obtain a connection for a target alias checks the
current guard state.  Not armed at all → Access-Denied with the fixed
template naming the opt-in mechanisms; armed but target alias outside
the allowed set → Access-Denied naming that alias ("not allowed"). -/
def checkAccess (guard : GuardState) (target : Alias) : Except String Unit :=
  match guard with
  | none => .error blockedMessage
  | some scope =>
      if scope.allowed_aliases.contains target then .ok ()
      else .error (aliasNotAllowedMessage target)

/-- Modelled from the spec: `disarm()` clears the permitted set
unconditionally (§4.1). -/
def disarm (_ : GuardState) : GuardState := none

/-- Phases of one test's lifecycle, in execution order: collection-time
code (conftest modules, test module bodies, unittest setUpClass), shared
fixture setup, the test body, and fixture finalization/teardown. -/
inductive Phase where
  | collection
  | setup
  | body
  | teardown
  deriving DecidableEq, Repr

/-- Modelled from the spec: the guard state seen at each phase of a
test's lifecycle (§5 ordering guarantee: `arm` happens-before the test
body, `disarm` happens after teardown).  A test with no database
declaration is never armed; a declared test is armed from fixture setup
through fixture finalization, while collection-time code always runs
before any arming. -/
def guardDuring (known : List Alias) (decl : Option DeclaredRequirement)
    (phase : Phase) : GuardState :=
  match decl, phase with
  | _, .collection => none
  | none, _ => none
  | some req, _ =>
      match resolveAliases known req.databases with
      | .ok allowed => some { allowed_aliases := allowed }
      | .error _ => none

/-- Capabilities of the underlying database engine, queryable before
selecting a mode (`connection.features` in the test file). -/
structure EngineFeatures where
  supports_transactions : Bool
  supports_sequence_reset : Bool
  deriving DecidableEq, Repr

/-- From `tests/test_database.py` (`db_supports_reset_sequences`):
the current engine supports `reset_sequences` iff it supports both
transactions and sequence reset. -/
def db_supports_reset_sequences (f : EngineFeatures) : Bool :=
  f.supports_transactions && f.supports_sequence_reset

/-- One logical database: its rows (by generated id) and the
auto-increment counter.  The counter's initial value is 1, so a freshly
reset sequence hands out id 1 first. -/
structure Database where
  rows : List Nat
  next_id : Nat
  deriving DecidableEq, Repr

/-- A database with no rows and the auto-increment counter at its
initial value. -/
def Database.fresh : Database := { rows := [], next_id := 1 }

/-- Insert one row: the row receives the current counter value as its
id and the counter advances. -/
def Database.insert (db : Database) : Database × Nat :=
  ({ rows := db.rows ++ [db.next_id], next_id := db.next_id + 1 }, db.next_id)

/-- Delete the row with the given id, if present.  Deleting does not
move the auto-increment counter back. -/
def Database.deleteRow (db : Database) (id : Nat) : Database :=
  { db with rows := db.rows.filter (fun r => r ≠ id) }

/-- Flush: delete all rows from all tables without altering schema; the
auto-increment counter is untouched. -/
def Database.flush (db : Database) : Database :=
  { db with rows := [] }

/-- Sequence reset: restore the auto-increment counter to its initial
value. -/
def Database.resetSequences (db : Database) : Database :=
  { db with next_id := 1 }

/-- Operations a test body may perform against one alias. -/
inductive DbOp where
  | insert
  | delete (id : Nat)
  deriving DecidableEq, Repr

/-- Apply one test-body operation to a database. -/
def applyOp (db : Database) : DbOp → Database
  | .insert => (db.insert).1
  | .delete id => db.deleteRow id

/-- Apply a test body (a list of operations) to a database. -/
def applyOps (db : Database) (ops : List DbOp) : Database :=
  ops.foldl applyOp db

/-- The connection state a test body observes on one alias: the database
plus whether the connection is currently inside an atomic block. -/
structure Connection where
  db : Database
  in_atomic_block : Bool
  deriving DecidableEq, Repr

/-- Modelled from the spec: the Transaction Wrapper's `enter` (§4.3).
TRANSACTIONAL begins a nested atomic block (when the engine supports
transactions), so the test body runs with `in_atomic_block` set;
DESTRUCTIVE opens no wrapping block; DESTRUCTIVE_WITH_SEQUENCE_RESET
additionally restores the auto-increment counters to their initial
value before the test body, and is rejected with a configuration error
at setup on an engine lacking sequence-reset support.  BLOCKED grants
nothing and opens nothing. -/
def enterWrapper (f : EngineFeatures) (mode : IsolationMode)
    (db : Database) : Except ConfigError Connection :=
  match mode with
  | .BLOCKED => .ok { db := db, in_atomic_block := false }
  | .TRANSACTIONAL =>
      .ok { db := db, in_atomic_block := f.supports_transactions }
  | .DESTRUCTIVE => .ok { db := db, in_atomic_block := false }
  | .DESTRUCTIVE_WITH_SEQUENCE_RESET =>
      if db_supports_reset_sequences f then
        .ok { db := db.resetSequences, in_atomic_block := false }
      else
        .error "reset_sequences is not supported by this database engine"

/-- Modelled from the spec: the Transaction Wrapper's `exit` (§4.3).
TRANSACTIONAL rolls back the savepoint opened by this test, discarding
all writes (the row state recorded at `enter` is restored; the engine's
sequence counters are not rewound by a rollback).  DESTRUCTIVE flushes
every table.  DESTRUCTIVE_WITH_SEQUENCE_RESET flushes and resets each
sequence to its start value. -/
def exitWrapper (mode : IsolationMode) (atEnter : Database)
    (conn : Connection) : Database :=
  match mode with
  | .BLOCKED => conn.db
  | .TRANSACTIONAL => { rows := atEnter.rows, next_id := conn.db.next_id }
  | .DESTRUCTIVE => conn.db.flush
  | .DESTRUCTIVE_WITH_SEQUENCE_RESET => (conn.db.flush).resetSequences

/-- Modelled from the spec: the full per-test lifecycle on one alias for
a granted mode — enter the isolation boundary, run the test body, exit
(rollback or flush) regardless of outcome — returning the database state
the next test starts from. -/
def runTest (f : EngineFeatures) (mode : IsolationMode) (db : Database)
    (ops : List DbOp) : Except ConfigError Database := do
  let conn ← enterWrapper f mode db
  let after := applyOps conn.db ops
  return exitWrapper mode db { conn with db := after }

/-- The Declared Requirement granted by the `db` fixture: TRANSACTIONAL
default-alias access (all marker defaults). -/
def dbFixtureReq : DeclaredRequirement := {}

/-- The Declared Requirement granted by the `transactional_db` fixture:
DESTRUCTIVE default-alias access. -/
def transactionalDbFixtureReq : DeclaredRequirement := { transaction := true }

/-- The Declared Requirement granted by the `django_db_reset_sequences`
fixture: DESTRUCTIVE_WITH_SEQUENCE_RESET default-alias access. -/
def djangoDbResetSequencesFixtureReq : DeclaredRequirement :=
  { reset_sequences := true }

/-- Modelled from the spec: the combined Isolation Mode of multiple
stacked declarations on one test (§4.4): the most permissive mode among
them. -/
def stackMode (reqs : List DeclaredRequirement) : IsolationMode :=
  reqs.foldl (fun m r => m.join (resolveMode r)) .BLOCKED

/-- Modelled from the spec: per-alias wrapper entry (§4.3): entering
twice for the same alias is a no-op / reuses the existing block rather
than double-wrapping; entering while a conflicting mode is already
entered is a double-wrapping error. -/
def ensureEntered (entered : Option IsolationMode) (m : IsolationMode) :
    Except String (Option IsolationMode) :=
  match entered with
  | none => .ok (some m)
  | some m₀ =>
      if m₀ = m then .ok (some m₀)
      else .error "isolation boundary already entered with a conflicting mode"

/-- Modelled from the spec: setup of a test with stacked db-granting
fixtures: each fixture in turn asks the Transaction Wrapper to ensure
the test's combined (most permissive) mode is entered for the shared
alias. -/
def setupStack (reqs : List DeclaredRequirement) :
    Except String (Option IsolationMode) :=
  reqs.foldlM (fun entered _ => ensureEntered entered (stackMode reqs)) none

/-- Modelled from the spec: resolve an alias through the mirror mapping —
a replica alias stands for its source alias's underlying database. -/
def resolveMirror (mirrors : List (Alias × Alias)) (a : Alias) : Alias :=
  match mirrors.find? (fun p => p.1 == a) with
  | some p => p.2
  | none => a

/-- The per-run state of all physical databases, keyed by alias. -/
abbrev MultiDb := List (Alias × Database)

/-- Look up the database for an alias (a fresh database if the alias has
no entry yet). -/
def MultiDb.get (s : MultiDb) (a : Alias) : Database :=
  match s.find? (fun p => p.1 == a) with
  | some p => p.2
  | none => Database.fresh

/-- Store the database for an alias. -/
def MultiDb.put (s : MultiDb) (a : Alias) (db : Database) : MultiDb :=
  (a, db) :: s.filter (fun p => p.1 != a)

/-- Modelled from the spec: a committed write on an alias during a
DESTRUCTIVE-mode test goes to the mirror-resolved underlying database,
so writes committed on a source alias are replicated onto every alias
mirroring it. -/
def writeRow (mirrors : List (Alias × Alias)) (s : MultiDb) (a : Alias) :
    MultiDb :=
  let tgt := resolveMirror mirrors a
  MultiDb.put s tgt ((MultiDb.get s tgt).insert).1

/-- A row-count query on an alias reads the mirror-resolved underlying
database. -/
def countRows (mirrors : List (Alias × Alias)) (s : MultiDb) (a : Alias) :
    Nat :=
  (MultiDb.get s (resolveMirror mirrors a)).rows.length

/-- Where, in the test lifecycle, an Access-Denied error was raised. -/
inductive RaisePoint where
  | conftestModule
  | testModuleBody
  | setUpClass
  | testBody
  deriving DecidableEq, Repr

/-- The lifecycle phase at which each raise point executes: conftest
modules and test module bodies run at collection time, unittest
setUpClass runs in shared setup, the test body runs as the test. -/
def RaisePoint.phase : RaisePoint → Phase
  | .conftestModule => .collection
  | .testModuleBody => .collection
  | .setUpClass => .setup
  | .testBody => .body

/-- How the outer test tool reports an error. -/
inductive Report where
  | setupError
  | testFailure
  | warning
  | skipped
  deriving DecidableEq, Repr

/-- Modelled from the spec: the propagation policy (§7): Access-Denied
at collection time or in shared setup surfaces as a setup/collection
error, inside a test body as a test failure; never downgraded to a
warning or a skip. -/
def reportAccessDenied (p : RaisePoint) : Report :=
  match p.phase with
  | .collection => .setupError
  | .setup => .setupError
  | .body => .testFailure
  | .teardown => .testFailure

/-- Modelled from the spec: which tests the error is charged to (§7):
an error in collection-time or shared setup code affects every test
depending on that setup; an error in a test body affects that test
only. -/
def affectedTests (p : RaisePoint) (dependents : List String)
    (raiser : String) : List String :=
  match p.phase with
  | .body => [raiser]
  | _ => dependents

/-! Helper lemmas. -/

/-- Once the combined mode is entered for an alias, every further
stacked fixture's entry request for that mode is a no-op. -/
theorem foldlM_ensureEntered (m : IsolationMode)
    (l : List DeclaredRequirement) :
    l.foldlM (fun entered _ => ensureEntered entered m) (some m)
      = Except.ok (some m) := by
  induction l with
  | nil => rfl
  | cons a l ih => simpa [List.foldlM_cons, ensureEntered] using ih

/-- Storing a database for an alias and reading it back yields it. -/
theorem MultiDb.get_put (s : MultiDb) (a : Alias) (db : Database) :
    MultiDb.get (MultiDb.put s a db) a = db := by
  simp [MultiDb.get, MultiDb.put, List.find?]

/-! Claim theorems. -/

/-- Claim C1: for every test with no database declaration, any database
call — at any lifecycle phase, in particular inside the test body and
inside shared setup code that runs before it — raises an Access-Denied
error whose message is exactly the fixed template naming the opt-in
mechanisms. -/
theorem guard_blocks_undeclared_tests (known : List Alias) (phase : Phase)
    (a : Alias) :
    checkAccess (guardDuring known none phase) a = .error blockedMessage
    ∧ blockedMessage = "Database access not allowed, use the \"django_db\" mark, or the \"db\" or \"transactional_db\" fixtures to enable it." := by
  refine ⟨?_, rfl⟩
  cases phase <;> rfl

/-- Witness for C1: an undeclared test's database call on "default" at
the body phase is denied with the fixed template. -/
theorem guard_blocks_undeclared_tests_witness :
    checkAccess (guardDuring ["default", "replica", "second"] none .body)
        "default" = .error blockedMessage :=
  (guard_blocks_undeclared_tests ["default", "replica", "second"] .body
    "default").1

/-- Claim C2: with `databases={"X"}` resolved to an allowed set, access
to any alias outside it raises Access-Denied whose message contains
"not allowed" (stated as: "not allowed" is a suffix of the message's
character data), access to every alias in the set succeeds, and
`databases='__all__'` resolves to every known alias, for each of which
access succeeds. -/
theorem databases_scoping (known ds : List Alias)
    (_hres : resolveAliases known (DatabasesDecl.subset ds) = .ok ds) :
    (∀ b, ds.contains b = false →
      checkAccess (some { allowed_aliases := ds }) b
        = .error (aliasNotAllowedMessage b))
    ∧ (∀ b, ∃ pre : List Char,
        (aliasNotAllowedMessage b).data = pre ++ ("not allowed").data)
    ∧ (∀ a, ds.contains a = true →
        checkAccess (some { allowed_aliases := ds }) a = .ok ())
    ∧ resolveAliases known DatabasesDecl.all = .ok known
    ∧ (∀ c, known.contains c = true →
        checkAccess (some { allowed_aliases := known }) c = .ok ()) := by
  refine ⟨?_, ?_, ?_, rfl, ?_⟩
  · intro b hb
    simp [checkAccess, hb]
    simpa using hb
  · intro b
    refine ⟨("Database queries to " ++ b ++ " are ").data, ?_⟩
    simp [aliasNotAllowedMessage, String.data_append]
  · intro a ha
    simp [checkAccess, ha]
    simpa using ha
  · intro c hc
    simp [checkAccess, hc]
    simpa using hc

/-- Witness for C2 at the suite's concrete aliases: a test declaring
`databases=['default']` is denied on "second" with the "not allowed"
message and allowed on "default"; `'__all__'` resolves to all three
known aliases. -/
theorem databases_scoping_witness :
    checkAccess (some { allowed_aliases := ["default"] }) "second"
      = .error (aliasNotAllowedMessage "second")
    ∧ checkAccess (some { allowed_aliases := ["default"] }) "default" = .ok ()
    ∧ resolveAliases ["default", "replica", "second"] DatabasesDecl.all
      = .ok ["default", "replica", "second"] :=
  ⟨(databases_scoping ["default", "replica", "second"] ["default"]
      rfl).1 "second" rfl,
   (databases_scoping ["default", "replica", "second"] ["default"]
      rfl).2.2.1 "default" rfl,
   (databases_scoping ["default", "replica", "second"] ["default"]
      rfl).2.2.2.1⟩

/-- Claim C3: a TRANSACTIONAL test's writes are rolled back at teardown:
starting from a clean database, after the first test runs any body, the
resulting database has the original (empty) rows, so the next
TRANSACTIONAL test on the same alias observes a row count of zero. -/
theorem transactional_rollback_roundtrip (f : EngineFeatures)
    (db : Database) (ops₁ : List DbOp) (h : db.rows = []) :
    ∃ db₁, runTest f .TRANSACTIONAL db ops₁ = .ok db₁
      ∧ db₁.rows = db.rows
      ∧ db₁.rows.length = 0
      ∧ ∃ conn₂, enterWrapper f .TRANSACTIONAL db₁ = .ok conn₂
          ∧ conn₂.db.rows.length = 0 := by
  refine ⟨{ rows := db.rows, next_id := (applyOps db ops₁).next_id },
    rfl, rfl, by simp [h], ⟨_, rfl, by simp [h]⟩⟩

/-- Witness for C3: one insert under the TRANSACTIONAL wrapper on a
fresh database rolls back to zero rows for the next test. -/
theorem transactional_rollback_roundtrip_witness :
    ∃ db₁, runTest ⟨true, true⟩ .TRANSACTIONAL Database.fresh [.insert]
        = .ok db₁
      ∧ db₁.rows = Database.fresh.rows
      ∧ db₁.rows.length = 0
      ∧ ∃ conn₂, enterWrapper ⟨true, true⟩ .TRANSACTIONAL db₁ = .ok conn₂
          ∧ conn₂.db.rows.length = 0 :=
  transactional_rollback_roundtrip ⟨true, true⟩ Database.fresh [.insert] rfl

/-- Claim C4: on an engine supporting transactions, a requirement with
`transaction=False` (the default, as granted by the plain `db` fixture)
resolves to TRANSACTIONAL and the test body runs inside an atomic
block, while `transaction=True` resolves to DESTRUCTIVE and the test
body runs outside any atomic block. -/
theorem transaction_option_atomic_block (f : EngineFeatures)
    (db : Database) (req : DeclaredRequirement)
    (h : f.supports_transactions = true) :
    (req.reset_sequences = false → req.transaction = false →
      resolveMode req = .TRANSACTIONAL
      ∧ ∃ conn, enterWrapper f (resolveMode req) db = .ok conn
          ∧ conn.in_atomic_block = true)
    ∧ (req.reset_sequences = false → req.transaction = true →
      resolveMode req = .DESTRUCTIVE
      ∧ ∃ conn, enterWrapper f (resolveMode req) db = .ok conn
          ∧ conn.in_atomic_block = false) := by
  constructor
  · intro hrs ht
    have hm : resolveMode req = .TRANSACTIONAL := by
      simp [resolveMode, hrs, ht]
    refine ⟨hm, ?_⟩
    rw [hm]
    exact ⟨_, rfl, h⟩
  · intro hrs ht
    have hm : resolveMode req = .DESTRUCTIVE := by
      simp [resolveMode, hrs, ht]
    refine ⟨hm, ?_⟩
    rw [hm]
    exact ⟨_, rfl, rfl⟩

/-- Witness for C4: the `db` fixture's requirement yields an atomic
block and the `transactional_db` fixture's requirement yields none, on
an engine with transaction support. -/
theorem transaction_option_atomic_block_witness :
    (resolveMode dbFixtureReq = .TRANSACTIONAL
      ∧ ∃ conn, enterWrapper ⟨true, true⟩ (resolveMode dbFixtureReq)
            Database.fresh = .ok conn
          ∧ conn.in_atomic_block = true)
    ∧ (resolveMode transactionalDbFixtureReq = .DESTRUCTIVE
      ∧ ∃ conn, enterWrapper ⟨true, true⟩
            (resolveMode transactionalDbFixtureReq) Database.fresh = .ok conn
          ∧ conn.in_atomic_block = false) :=
  ⟨(transaction_option_atomic_block ⟨true, true⟩ Database.fresh
      dbFixtureReq rfl).1 rfl rfl,
   (transaction_option_atomic_block ⟨true, true⟩ Database.fresh
      transactionalDbFixtureReq rfl).2 rfl rfl⟩

/-- Claim C5: `reset_sequences=True` upgrades the isolation mode to
DESTRUCTIVE_WITH_SEQUENCE_RESET for every value of `transaction`
(including `transaction=True`), and entering that mode leaves the test
body outside any atomic block. -/
theorem reset_sequences_upgrades_mode (t : Bool) (d : DatabasesDecl)
    (f : EngineFeatures) (db : Database)
    (h : db_supports_reset_sequences f = true) :
    resolveMode { transaction := t, reset_sequences := true, databases := d }
      = .DESTRUCTIVE_WITH_SEQUENCE_RESET
    ∧ ∃ conn, enterWrapper f .DESTRUCTIVE_WITH_SEQUENCE_RESET db = .ok conn
        ∧ conn.in_atomic_block = false := by
  refine ⟨rfl, ⟨{ db := db.resetSequences, in_atomic_block := false }, ?_, rfl⟩⟩
  simp [enterWrapper, h]

/-- Witness for C5: `transaction=True, reset_sequences=True` (as in the
marked test) still resolves to DESTRUCTIVE_WITH_SEQUENCE_RESET with no
atomic block. -/
theorem reset_sequences_upgrades_mode_witness :
    resolveMode
        { transaction := true, reset_sequences := true,
          databases := .subset ["default"] }
      = .DESTRUCTIVE_WITH_SEQUENCE_RESET
    ∧ ∃ conn, enterWrapper ⟨true, true⟩ .DESTRUCTIVE_WITH_SEQUENCE_RESET
          Database.fresh = .ok conn
        ∧ conn.in_atomic_block = false :=
  reset_sequences_upgrades_mode true (.subset ["default"]) ⟨true, true⟩
    Database.fresh rfl

/-- Claim C6: entering DESTRUCTIVE_WITH_SEQUENCE_RESET on an engine that
supports sequence reset restores the auto-increment counter before the
test body, so the test's first insert receives id 1 whatever the
counter was before; on an engine lacking support the mode is rejected
at setup with a configuration error instead of proceeding. -/
theorem sequence_reset_first_id (f : EngineFeatures) (db : Database) :
    (db_supports_reset_sequences f = true →
      ∃ conn, enterWrapper f .DESTRUCTIVE_WITH_SEQUENCE_RESET db = .ok conn
        ∧ ((conn.db).insert).2 = 1)
    ∧ (db_supports_reset_sequences f = false →
      enterWrapper f .DESTRUCTIVE_WITH_SEQUENCE_RESET db
        = .error "reset_sequences is not supported by this database engine") := by
  constructor
  · intro h
    exact ⟨{ db := db.resetSequences, in_atomic_block := false },
      by simp [enterWrapper, h], rfl⟩
  · intro h
    simp [enterWrapper, h]

/-- Witness for C6: with the counter advanced to 5 by earlier tests, a
supporting engine hands the first insert id 1, and an engine without
sequence-reset support rejects the mode at setup. -/
theorem sequence_reset_first_id_witness :
    (∃ conn, enterWrapper ⟨true, true⟩ .DESTRUCTIVE_WITH_SEQUENCE_RESET
          { rows := [], next_id := 5 } = .ok conn
        ∧ ((conn.db).insert).2 = 1)
    ∧ enterWrapper ⟨true, false⟩ .DESTRUCTIVE_WITH_SEQUENCE_RESET
        { rows := [], next_id := 5 }
      = .error "reset_sequences is not supported by this database engine" :=
  ⟨(sequence_reset_first_id ⟨true, true⟩ { rows := [], next_id := 5 }).1 rfl,
   (sequence_reset_first_id ⟨true, false⟩ { rows := [], next_id := 5 }).2 rfl⟩

/-- Claim C7: stacked db-granting fixtures on one test, in either order,
combine to the most destructive mode (db + transactional_db gives
DESTRUCTIVE in both orders; adding reset-sequences gives
DESTRUCTIVE_WITH_SEQUENCE_RESET), and setup enters that mode exactly
once for the shared alias with no double-wrapping error. -/
theorem stacked_fixtures_most_destructive (reqs : List DeclaredRequirement)
    (h : reqs ≠ []) :
    setupStack reqs = .ok (some (stackMode reqs))
    ∧ stackMode [dbFixtureReq, transactionalDbFixtureReq] = .DESTRUCTIVE
    ∧ stackMode [transactionalDbFixtureReq, dbFixtureReq] = .DESTRUCTIVE
    ∧ stackMode [djangoDbResetSequencesFixtureReq, transactionalDbFixtureReq,
        dbFixtureReq] = .DESTRUCTIVE_WITH_SEQUENCE_RESET := by
  refine ⟨?_, rfl, rfl, rfl⟩
  cases reqs with
  | nil => exact absurd rfl h
  | cons a l =>
      exact foldlM_ensureEntered (stackMode (a :: l)) l

/-- Witness for C7: the db-then-transactional_db stack sets up with a
single DESTRUCTIVE entry and no error. -/
theorem stacked_fixtures_most_destructive_witness :
    setupStack [dbFixtureReq, transactionalDbFixtureReq]
      = .ok (some (stackMode [dbFixtureReq, transactionalDbFixtureReq])) :=
  (stacked_fixtures_most_destructive [dbFixtureReq, transactionalDbFixtureReq]
    (List.cons_ne_nil _ _)).1

/-- Claim C8: an Access-Denied error raised in a conftest module, a test
module body, or a unittest setUpClass is reported as a setup/collection
error charged to every dependent test, while one raised inside a test
body is reported as a failure of that test only; no raise point is ever
downgraded to a warning or a skip. -/
theorem access_denied_reporting (dependents : List String)
    (raiser : String) :
    (reportAccessDenied .conftestModule = .setupError
      ∧ affectedTests .conftestModule dependents raiser = dependents)
    ∧ (reportAccessDenied .testModuleBody = .setupError
      ∧ affectedTests .testModuleBody dependents raiser = dependents)
    ∧ (reportAccessDenied .setUpClass = .setupError
      ∧ affectedTests .setUpClass dependents raiser = dependents)
    ∧ (reportAccessDenied .testBody = .testFailure
      ∧ affectedTests .testBody dependents raiser = [raiser])
    ∧ (∀ p : RaisePoint, reportAccessDenied p ≠ .warning
        ∧ reportAccessDenied p ≠ .skipped) := by
  refine ⟨⟨rfl, rfl⟩, ⟨rfl, rfl⟩, ⟨rfl, rfl⟩, ⟨rfl, rfl⟩, ?_⟩
  intro p
  cases p <;> exact ⟨by simp [reportAccessDenied, RaisePoint.phase],
    by simp [reportAccessDenied, RaisePoint.phase]⟩

/-- Witness for C8: the unittest-interaction scenario — Access-Denied in
setUpClass surfaces as a setup error for the dependent test, and inside
a test body as a failure of that test only. -/
theorem access_denied_reporting_witness :
    reportAccessDenied .setUpClass = .setupError
    ∧ affectedTests .setUpClass ["test_db_access_1"] "t" = ["test_db_access_1"]
    ∧ reportAccessDenied .testBody = .testFailure
    ∧ affectedTests .testBody ["test_db_access_1"] "test_db_access_3"
        = ["test_db_access_3"] :=
  ⟨(access_denied_reporting ["test_db_access_1"] "t").2.2.1.1,
   (access_denied_reporting ["test_db_access_1"] "t").2.2.1.2,
   (access_denied_reporting ["test_db_access_1"] "test_db_access_3").2.2.2.1.1,
   (access_denied_reporting ["test_db_access_1"] "test_db_access_3").2.2.2.1.2⟩

/-- Claim C9: a DESTRUCTIVE-mode test declaring both a replica alias and
its source alias gets DESTRUCTIVE mode and access to both; the replica
reads the mirror-resolved source database, so its observed row count
always equals the source's, and a write committed via the source is
observed by a query on the replica. -/
theorem replica_mirrors_source (s : MultiDb) (r src : Alias)
    (h : r ≠ src) :
    resolveMode { transaction := true, databases := DatabasesDecl.subset [src, r] }
      = .DESTRUCTIVE
    ∧ checkAccess (some { allowed_aliases := [src, r], mirrors := [(r, src)] })
        src = .ok ()
    ∧ checkAccess (some { allowed_aliases := [src, r], mirrors := [(r, src)] })
        r = .ok ()
    ∧ countRows [(r, src)] s r = countRows [(r, src)] s src
    ∧ countRows [(r, src)] (writeRow [(r, src)] s src) r
        = countRows [(r, src)] s src + 1 := by
  have hr : resolveMirror [(r, src)] r = src := by
    simp [resolveMirror, List.find?]
  have hbe : (r == src) = false := beq_eq_false_iff_ne.mpr h
  have hsrc : resolveMirror [(r, src)] src = src := by
    simp [resolveMirror, List.find?, hbe]
  refine ⟨rfl, ?_, ?_, ?_, ?_⟩
  · simp [checkAccess]
  · simp [checkAccess]
  · simp [countRows, hr, hsrc]
  · simp only [countRows, writeRow, hr, hsrc, MultiDb.get_put]
    simp [Database.insert]

/-- Witness for C9: with replica "replica" mirroring source "default",
one write via "default" on an empty run state is observed by a count on
"replica". -/
theorem replica_mirrors_source_witness :
    countRows [("replica", "default")]
        (writeRow [("replica", "default")] [] "default") "replica"
      = countRows [("replica", "default")] ([] : MultiDb) "default" + 1 :=
  (replica_mirrors_source [] "replica" "default" (by decide)).2.2.2.2

/-- Claim C10: each database-granting fixture's access scope is still
armed during fixture finalization: at the teardown phase, a database
call on the default alias succeeds for the `db`, `transactional_db` and
`django_db_reset_sequences` grants alike. -/
theorem db_fixtures_armed_through_teardown (known : List Alias)
    (h : known.contains "default" = true) :
    checkAccess (guardDuring known (some dbFixtureReq) .teardown) "default"
      = .ok ()
    ∧ checkAccess (guardDuring known (some transactionalDbFixtureReq)
        .teardown) "default" = .ok ()
    ∧ checkAccess (guardDuring known (some djangoDbResetSequencesFixtureReq)
        .teardown) "default" = .ok () := by
  have key : ∀ req : DeclaredRequirement,
      req.databases = .subset ["default"] →
      checkAccess (guardDuring known (some req) .teardown) "default"
        = .ok () := by
    intro req hd
    have hguard : guardDuring known (some req) .teardown
        = match resolveAliases known req.databases with
          | .ok allowed => some { allowed_aliases := allowed }
          | .error _ => none := rfl
    have hmem : "default" ∈ known := by simpa using h
    rw [hguard, hd]
    simp [resolveAliases, hmem, checkAccess]
  exact ⟨key _ rfl, key _ rfl, key _ rfl⟩

/-- Witness for C10: with the suite's three known aliases, the teardown
phase of each grant kind still allows a write on "default". -/
theorem db_fixtures_armed_through_teardown_witness :
    checkAccess (guardDuring ["default", "replica", "second"]
        (some dbFixtureReq) .teardown) "default" = .ok ()
    ∧ checkAccess (guardDuring ["default", "replica", "second"]
        (some transactionalDbFixtureReq) .teardown) "default" = .ok ()
    ∧ checkAccess (guardDuring ["default", "replica", "second"]
        (some djangoDbResetSequencesFixtureReq) .teardown) "default"
      = .ok () :=
  db_fixtures_armed_through_teardown ["default", "replica", "second"] rfl

end PytestDjango
